import Mathlib

set_option maxRecDepth 8000

/-!
Shallow embedding of `src/data_generator.py` from the repository
"Antibacterial-Activity-of-Natural-Plant-Extracts-Against-Common-Bacteria".

The single function with algorithmic content, `generate_antibacterial_data`,
iterates over fixed catalogs of plant extracts, bacteria, concentrations and
replicates; for each combination it computes an inhibition zone
`(base + log10(concentration/10) * 3) * resistance + noise`, clamps it at 0,
classifies it into an activity tier, rounds it to 2 decimals, stamps a test
date, and collects the records.  At the end it writes the records to
`antibacterial_data.csv` and prints two status lines.

Modelling choices:
* Machine floats become real numbers (`ℝ`); `np.log10` becomes `Real.logb 10`.
* `np.random.normal(0, variance)` is modelled by the sampled value itself: the
  generator takes `noise : ℕ → ℝ`, where `noise k` is the value the k-th call
  of `np.random.normal` returned (a normal draw can be any real number, so the
  claims quantify over all noise functions).
* `random.randint(1, 30)` for the test date is likewise a parameter
  `dateDraw : ℕ → ℕ`, and `datetime.now()` is a parameter `now : ℤ` (days);
  `Test_Date` is stored as `now - dateDraw k`.
* Python's `round(x, 2)` is modelled as `round (x * 100) / 100` over `ℝ`
  (Python's float rounding differs only at exact binary half-way ties, which
  none of the claims touch).
* The `df.to_csv('antibacterial_data.csv', ...)` call is modelled by pairing
  the record list with the list of file names the invocation writes.
-/

namespace Antibacterial

/-- One generated measurement row, with the seven columns appended at
`data.append({...})` in `generate_antibacterial_data`
(`src/data_generator.py` lines 97-105). -/
structure Record where
  plant : String
  bacteria : String
  concentration : ℕ
  replicate : ℕ
  inhibitionZone : ℝ
  activityLevel : String
  testDate : ℤ

/-- The `plant_extracts` catalog (`src/data_generator.py` lines 10-21). -/
def plant_extracts : List String :=
  [ "Garlic (Allium sativum)",
    "Tea Tree (Melaleuca alternifolia)",
    "Oregano (Origanum vulgare)",
    "Thyme (Thymus vulgaris)",
    "Eucalyptus (Eucalyptus globulus)",
    "Neem (Azadirachta indica)",
    "Turmeric (Curcuma longa)",
    "Ginger (Zingiber officinale)",
    "Cinnamon (Cinnamomum verum)",
    "Clove (Syzygium aromaticum)" ]

/-- The `bacteria` catalog (`src/data_generator.py` lines 24-33). -/
def bacteria : List String :=
  [ "Escherichia coli",
    "Staphylococcus aureus",
    "Streptococcus pyogenes",
    "Pseudomonas aeruginosa",
    "Bacillus subtilis",
    "Salmonella typhimurium",
    "Enterococcus faecalis",
    "Klebsiella pneumoniae" ]

/-- The `concentrations` catalog in mg/mL (`src/data_generator.py` line 36). -/
def concentrations : List ℕ := [10, 25, 50, 100, 200]

/-- The `base` entry of the `plant_effectiveness` dict
(`src/data_generator.py` lines 42-53).  Every key of the dict is listed; the
catch-all arm is unreachable for catalog names (a Python dict lookup with a
missing key would raise). -/
def plant_base : String → ℝ
  | "Garlic (Allium sativum)" => 15
  | "Tea Tree (Melaleuca alternifolia)" => 18
  | "Oregano (Origanum vulgare)" => 16
  | "Thyme (Thymus vulgaris)" => 17
  | "Eucalyptus (Eucalyptus globulus)" => 12
  | "Neem (Azadirachta indica)" => 14
  | "Turmeric (Curcuma longa)" => 10
  | "Ginger (Zingiber officinale)" => 8
  | "Cinnamon (Cinnamomum verum)" => 13
  | "Clove (Syzygium aromaticum)" => 19
  | _ => 0

/-- The `variance` entry of the `plant_effectiveness` dict
(`src/data_generator.py` lines 42-53). -/
def plant_variance : String → ℝ
  | "Garlic (Allium sativum)" => 5
  | "Tea Tree (Melaleuca alternifolia)" => 4
  | "Oregano (Origanum vulgare)" => 3
  | "Thyme (Thymus vulgaris)" => 4
  | "Eucalyptus (Eucalyptus globulus)" => 6
  | "Neem (Azadirachta indica)" => 5
  | "Turmeric (Curcuma longa)" => 4
  | "Ginger (Zingiber officinale)" => 3
  | "Cinnamon (Cinnamomum verum)" => 4
  | "Clove (Syzygium aromaticum)" => 3
  | _ => 0

/-- The `bacterial_resistance` dict (`src/data_generator.py` lines 56-65). -/
def bacterial_resistance : String → ℝ
  | "Escherichia coli" => 1.0
  | "Staphylococcus aureus" => 0.8
  | "Streptococcus pyogenes" => 1.2
  | "Pseudomonas aeruginosa" => 0.6
  | "Bacillus subtilis" => 1.4
  | "Salmonella typhimurium" => 0.9
  | "Enterococcus faecalis" => 0.7
  | "Klebsiella pneumoniae" => 0.8
  | _ => 0

/-- `conc_effect = np.log10(concentration / 10) * 3`
(`src/data_generator.py` line 78). -/
noncomputable def conc_effect (concentration : ℕ) : ℝ :=
  Real.logb 10 ((concentration : ℝ) / 10) * 3

/-- The pre-noise inhibition zone
`(base_effectiveness + conc_effect) * resistance_factor`
(`src/data_generator.py` line 81). -/
noncomputable def inhibition_zone_pre (plant bacterium : String) (concentration : ℕ) : ℝ :=
  (plant_base plant + conc_effect concentration) * bacterial_resistance bacterium

/-- Python's `round(x, 2)` over the reals (`src/data_generator.py` line 102). -/
noncomputable def round2 (x : ℝ) : ℝ := (round (x * 100) : ℤ) / 100

/-- The activity-tier classification, the if/elif chain of
`src/data_generator.py` lines 88-95.  It is applied to the clamped,
**unrounded** `inhibition_zone` value. -/
noncomputable def activity_level (inhibition_zone : ℝ) : String :=
  if inhibition_zone ≥ 20 then "High"
  else if inhibition_zone ≥ 15 then "Moderate"
  else if inhibition_zone ≥ 10 then "Low"
  else "None"

/-- The body of the innermost loop (`src/data_generator.py` lines 72-105):
add the noise draw, clamp at 0, classify, round, and assemble the row.
`rep` is the 0-based Python loop variable; the stored `Replicate` is
`rep + 1`. -/
noncomputable def mkRecord (noiseVal : ℝ) (date : ℤ) (plant bacterium : String)
    (concentration rep : ℕ) : Record :=
  let inhibition_zone :=
    max 0 (inhibition_zone_pre plant bacterium concentration + noiseVal)
  { plant := plant
    bacteria := bacterium
    concentration := concentration
    replicate := rep + 1
    inhibitionZone := round2 inhibition_zone
    activityLevel := activity_level inhibition_zone
    testDate := date }

/-- The iteration space of the four nested `for` loops
(`src/data_generator.py` lines 67-70), in loop order: plant slowest, then
bacterium, then concentration, then the 0-based replicate from `range(3)`. -/
def combos : List (String × String × ℕ × ℕ) :=
  plant_extracts.flatMap fun plant =>
    bacteria.flatMap fun bacterium =>
      concentrations.flatMap fun concentration =>
        (List.range 3).map fun rep => (plant, bacterium, concentration, rep)

/-- The record list built by the nested loops of `generate_antibacterial_data`
(`src/data_generator.py` lines 67-105).  The k-th record consumes the k-th
noise draw and the k-th date draw. -/
noncomputable def generate_records (noise : ℕ → ℝ) (now : ℤ) (dateDraw : ℕ → ℕ) :
    List Record :=
  combos.enum.map fun ke =>
    match ke with
    | (k, plant, bacterium, concentration, rep) =>
        mkRecord (noise k) (now - (dateDraw k : ℤ)) plant bacterium concentration rep

/-- The whole function `generate_antibacterial_data`
(`src/data_generator.py` lines 6-111): it builds the record list and, before
returning it, writes it to `antibacterial_data.csv` (`df.to_csv`, line 108).
The second component records the names of the files the invocation writes. -/
noncomputable def generate_antibacterial_data (noise : ℕ → ℝ) (now : ℤ)
    (dateDraw : ℕ → ℕ) : List Record × List String :=
  (generate_records noise now dateDraw, ["antibacterial_data.csv"])

/-- The four categorical columns of a record, the (extract, bacterium,
concentration, replicate) key of the full factorial design. -/
def recordKey (r : Record) : String × String × ℕ × ℕ :=
  (r.plant, r.bacteria, r.concentration, r.replicate)

/-- The six columns of a record other than `Test_Date`: everything that
depends only on the random noise stream and the fixed tables, not on the
clock. -/
def recordData (r : Record) : String × String × ℕ × ℕ × ℝ × String :=
  (r.plant, r.bacteria, r.concentration, r.replicate, r.inhibitionZone,
    r.activityLevel)

/-- The generator loops run over explicit catalogs instead of the hard-coded
ones, with an `Except` result type so that a fail-fast configuration check
could be expressed.  The source of `generate_antibacterial_data` contains no
`raise` and no validation of any kind, so every configuration — valid or not —
reaches the loops and the result is always `Except.ok`. -/
noncomputable def generate_records_checked (plants bacts : List String)
    (concs : List ℕ) (noise : ℕ → ℝ) (now : ℤ) (dateDraw : ℕ → ℕ) :
    Except String (List Record) :=
  Except.ok
    ((plants.flatMap fun plant =>
        bacts.flatMap fun bacterium =>
          concs.flatMap fun concentration =>
            (List.range 3).map fun rep =>
              (plant, bacterium, concentration, rep)).enum.map fun ke =>
      match ke with
      | (k, plant, bacterium, concentration, rep) =>
          mkRecord (noise k) (now - (dateDraw k : ℤ)) plant bacterium concentration rep)

/-! ### Structural lemmas about the generator -/

lemma mem_of_head_eq {α : Type*} {l : List α} {a : α} (h : l.head? = some a) :
    a ∈ l := by
  cases l with
  | nil => simp at h
  | cons b t => simp only [List.head?_cons, Option.some.injEq] at h; exact h ▸ List.mem_cons_self b t

lemma enumFrom_map_eq {α β : Type*} (f : ℕ × α → β) (g : α → β)
    (h : ∀ k a, f (k, a) = g a) :
    ∀ (l : List α) (n : ℕ), (l.enumFrom n).map f = l.map g
  | [], _ => rfl
  | a :: t, n => by
      rw [List.enumFrom_cons, List.map_cons, List.map_cons, h,
        enumFrom_map_eq f g h t (n + 1)]

lemma mem_enumFrom_imp {α : Type*} :
    ∀ {l : List α} {n : ℕ} {x : ℕ × α}, x ∈ l.enumFrom n →
      x.2 ∈ l ∧ x.1 < n + l.length := by
  intro l
  induction l with
  | nil => intro n x hx; simp [List.enumFrom] at hx
  | cons a t ih =>
      intro n x hx
      rw [List.enumFrom_cons, List.mem_cons] at hx
      rcases hx with hx | hx
      · subst hx
        exact ⟨List.mem_cons_self a t, by simp only [List.length_cons]; omega⟩
      · obtain ⟨h1, h2⟩ := ih hx
        refine ⟨List.mem_cons_of_mem a h1, ?_⟩
        simp only [List.length_cons] at h2 ⊢
        omega

lemma combos_eq_product :
    combos = plant_extracts ×ˢ (bacteria ×ˢ (concentrations ×ˢ List.range 3)) := by
  simp only [combos, SProd.sprod, List.product, List.map_flatMap, List.map_map,
    Function.comp_def]

lemma combos_nodup : combos.Nodup := by
  rw [combos_eq_product]
  exact (by decide : plant_extracts.Nodup).product
    ((by decide : bacteria.Nodup).product
      ((by decide : concentrations.Nodup).product (List.nodup_range 3)))

lemma combos_length : combos.length = 1200 := by decide

/-- Projecting the categorical key out of every generated record erases every
dependence on the noise, the clock and the date draws. -/
lemma generate_records_map_key (noise : ℕ → ℝ) (now : ℤ) (dateDraw : ℕ → ℕ) :
    (generate_records noise now dateDraw).map recordKey =
      combos.map fun t => (t.1, t.2.1, t.2.2.1, t.2.2.2 + 1) := by
  unfold generate_records
  rw [List.map_map]
  exact enumFrom_map_eq _ _ (fun k a => by rcases a with ⟨p, b, c, r⟩; rfl) combos 0

/-- Every generated record is `mkRecord` applied to the k-th draws and a
combination drawn from the catalogs. -/
lemma generate_records_mem {noise : ℕ → ℝ} {now : ℤ} {dateDraw : ℕ → ℕ}
    {r : Record} (h : r ∈ generate_records noise now dateDraw) :
    ∃ k plant bacterium concentration rep,
      k < 1200 ∧ plant ∈ plant_extracts ∧ bacterium ∈ bacteria ∧
      concentration ∈ concentrations ∧ rep < 3 ∧
      r = mkRecord (noise k) (now - (dateDraw k : ℤ)) plant bacterium concentration rep := by
  unfold generate_records at h
  obtain ⟨ke, hke, heq⟩ := List.mem_map.1 h
  rcases ke with ⟨k, p, b, c, rep⟩
  obtain ⟨hmem, hlt⟩ := mem_enumFrom_imp hke
  rw [combos_eq_product] at hmem
  obtain ⟨hp, hb, hc, hrep⟩ := by
    simpa only [List.mem_product] using hmem
  refine ⟨k, p, b, c, rep, ?_, hp, hb, hc, List.mem_range.1 hrep, heq.symm⟩
  simpa [combos_length] using hlt

/-! ### Arithmetic helper lemmas -/

lemma conc_effect_ten : conc_effect 10 = 0 := by
  unfold conc_effect
  norm_num [Real.logb_one]

lemma activity_level_high {z : ℝ} (h : 20 ≤ z) : activity_level z = "High" := by
  unfold activity_level
  rw [if_pos h]

lemma activity_level_moderate {z : ℝ} (h1 : z < 20) (h2 : 15 ≤ z) :
    activity_level z = "Moderate" := by
  unfold activity_level
  rw [if_neg (by push_neg; exact h1), if_pos h2]

lemma activity_level_low {z : ℝ} (h1 : z < 15) (h2 : 10 ≤ z) :
    activity_level z = "Low" := by
  unfold activity_level
  rw [if_neg (by push_neg; linarith), if_neg (by push_neg; exact h1), if_pos h2]

lemma round2_nonneg {x : ℝ} (h : 0 ≤ x) : 0 ≤ round2 x := by
  unfold round2
  have h1 : (0 : ℤ) ≤ round (x * 100) := by
    rw [round_eq]
    have : (0 : ℝ) ≤ x * 100 + 1 / 2 := by nlinarith
    exact_mod_cast Int.floor_nonneg.2 this
  positivity

lemma mkRecord_inhibitionZone (v : ℝ) (d : ℤ) (p b : String) (c r : ℕ) :
    (mkRecord v d p b c r).inhibitionZone =
      round2 (max 0 (inhibition_zone_pre p b c + v)) := rfl

lemma mkRecord_activityLevel (v : ℝ) (d : ℤ) (p b : String) (c r : ℕ) :
    (mkRecord v d p b c r).activityLevel =
      activity_level (max 0 (inhibition_zone_pre p b c + v)) := rfl

/-- At the reference concentration the pre-noise value for the first catalog
combination (Garlic, E. coli) is the Garlic base 15. -/
lemma pre_garlic_ecoli_ten :
    inhibition_zone_pre "Garlic (Allium sativum)" "Escherichia coli" 10 = 15 := by
  unfold inhibition_zone_pre
  rw [conc_effect_ten, show plant_base "Garlic (Allium sativum)" = 15 from rfl,
    show bacterial_resistance "Escherichia coli" = 1.0 from rfl]
  norm_num

lemma round2_19996 : round2 (19996 / 1000) = 20 := by
  unfold round2
  rw [show ((19996 : ℝ) / 1000 * 100) = 19996 / 10 by ring, round_eq,
    show (⌊(19996 : ℝ) / 10 + 1 / 2⌋ = 2000) from Int.floor_eq_iff.2 (by norm_num)]
  norm_num

lemma logb_twenty_lt : Real.logb 10 20 < 4 / 3 := by
  rw [Real.logb_lt_iff_lt_rpow (by norm_num) (by norm_num)]
  refine lt_of_pow_lt_pow_left₀ 3 (by positivity) ?_
  have h1 : ((10 : ℝ) ^ ((4 : ℝ) / 3)) ^ (3 : ℕ) = (10 : ℝ) ^ (4 : ℝ) := by
    rw [← Real.rpow_natCast ((10 : ℝ) ^ ((4 : ℝ) / 3)) 3,
      ← Real.rpow_mul (by norm_num)]
    norm_num
  have h2 : ((10 : ℝ) ^ (4 : ℝ)) = 10000 := by
    rw [show (4 : ℝ) = ((4 : ℕ) : ℝ) by norm_num, Real.rpow_natCast]
    norm_num
  rw [h1, h2]
  norm_num

lemma lt_logb_twenty : 23 / 18 < Real.logb 10 20 := by
  rw [Real.lt_logb_iff_rpow_lt (by norm_num) (by norm_num)]
  refine lt_of_pow_lt_pow_left₀ 18 (by norm_num) ?_
  have h1 : ((10 : ℝ) ^ ((23 : ℝ) / 18)) ^ (18 : ℕ) = (10 : ℝ) ^ (23 : ℝ) := by
    rw [← Real.rpow_natCast ((10 : ℝ) ^ ((23 : ℝ) / 18)) 18,
      ← Real.rpow_mul (by norm_num)]
    norm_num
  have h2 : ((10 : ℝ) ^ (23 : ℝ)) = 10 ^ (23 : ℕ) := by
    rw [show (23 : ℝ) = ((23 : ℕ) : ℝ) by norm_num, Real.rpow_natCast]
  rw [h1, h2]
  norm_num

/-- The Clove × Pseudomonas pre-noise value at concentration 200 in closed
form. -/
lemma pre_clove_pseudomonas :
    inhibition_zone_pre "Clove (Syzygium aromaticum)" "Pseudomonas aeruginosa" 200 =
      (19 + Real.logb 10 20 * 3) * 0.6 := by
  unfold inhibition_zone_pre conc_effect
  rw [show plant_base "Clove (Syzygium aromaticum)" = 19 from rfl,
    show bacterial_resistance "Pseudomonas aeruginosa" = 0.6 from rfl,
    show (((200 : ℕ) : ℝ) / 10) = 20 by norm_num]

/-! ### Claim theorems -/

/-- C1 counterexample: the claim classifies the *stored* (rounded) value, but
the code classifies the *unrounded* value.  With the first noise draw equal
to 4.996 the first record (Garlic × E. coli at 10 mg/mL) has unrounded zone
19.996: its stored `Inhibition_Zone_mm` is 20.00 and its stored
`Activity_Level` is "Moderate", while the threshold partition applied to the
stored value 20.00 gives "High". -/
theorem tier_of_stored_value_counterexample :
    ((generate_records (fun _ => 4996 / 1000) 0 (fun _ => 1)).head?.map fun r =>
        (r.inhibitionZone, r.activityLevel, activity_level r.inhibitionZone)) =
      some (20, "Moderate", "High") := by
  have hhead : (generate_records (fun _ => 4996 / 1000) 0 (fun _ => 1)).head? =
      some (mkRecord (4996 / 1000) (0 - (1 : ℤ)) "Garlic (Allium sativum)"
        "Escherichia coli" 10 0) := rfl
  have hmax : max 0 (inhibition_zone_pre "Garlic (Allium sativum)"
      "Escherichia coli" 10 + 4996 / 1000) = (19996 / 1000 : ℝ) := by
    rw [pre_garlic_ecoli_ten, max_eq_right (by norm_num)]
    norm_num
  rw [hhead, Option.map_some', mkRecord_inhibitionZone, mkRecord_activityLevel,
    hmax, round2_19996, activity_level_moderate (by norm_num) (by norm_num),
    activity_level_high (by norm_num)]

/-- C1 (amended): the stored `Activity_Level` of every record is the
threshold partition ([20,∞)=High, [15,20)=Moderate, [10,15)=Low,
[0,10)=None) applied to the clamped **unrounded** inhibition value — the
value whose 2-decimal rounding is the stored `Inhibition_Zone_mm` — not to
the stored rounded value itself. -/
theorem activity_tier_matches_unrounded_value (noise : ℕ → ℝ) (now : ℤ)
    (dateDraw : ℕ → ℕ) :
    ∀ r ∈ generate_records noise now dateDraw, ∃ z : ℝ,
      0 ≤ z ∧ r.inhibitionZone = round2 z ∧ r.activityLevel = activity_level z := by
  intro r hr
  obtain ⟨k, p, b, c, rep, -, -, -, -, -, heq⟩ := generate_records_mem hr
  subst heq
  exact ⟨max 0 (inhibition_zone_pre p b c + noise k), le_max_left 0 _, rfl, rfl⟩

/-- C1 witness: the amended statement evaluated on the first record of a
zero-noise run. -/
theorem activity_tier_matches_unrounded_value_witness :
    ∃ z : ℝ, 0 ≤ z ∧
      (mkRecord 0 (0 - (1 : ℤ)) "Garlic (Allium sativum)" "Escherichia coli"
        10 0).inhibitionZone = round2 z ∧
      (mkRecord 0 (0 - (1 : ℤ)) "Garlic (Allium sativum)" "Escherichia coli"
        10 0).activityLevel = activity_level z :=
  activity_tier_matches_unrounded_value (fun _ => 0) 0 (fun _ => 1) _
    (mem_of_head_eq rfl)

/-- C3: every stored inhibition zone is non-negative, for every value of the
noise draws: the post-noise value is clamped at 0 before rounding, and the
rounding preserves non-negativity. -/
theorem inhibition_zone_nonneg (noise : ℕ → ℝ) (now : ℤ) (dateDraw : ℕ → ℕ) :
    ∀ r ∈ generate_records noise now dateDraw, 0 ≤ r.inhibitionZone := by
  intro r hr
  obtain ⟨k, p, b, c, rep, -, -, -, -, -, heq⟩ := generate_records_mem hr
  subst heq
  rw [mkRecord_inhibitionZone]
  exact round2_nonneg (le_max_left 0 _)

/-- C3 witness: non-negativity evaluated on the first record of a run whose
noise draws are all -100 (a draw that would make the raw value negative). -/
theorem inhibition_zone_nonneg_witness :
    0 ≤ (mkRecord (-100) (0 - (1 : ℤ)) "Garlic (Allium sativum)"
      "Escherichia coli" 10 0).inhibitionZone :=
  inhibition_zone_nonneg (fun _ => -100) 0 (fun _ => 1) _ (mem_of_head_eq rfl)

/-- C4: the pre-noise (zero-noise) inhibition value is
`(base + log10(c/10) * 3) * resistanceFactor`, and at the reference
concentration 10 mg/mL the concentration effect is exactly 0, so the
pre-noise value is `base * resistanceFactor`. -/
theorem pre_noise_value_formula (plant bacterium : String) (c : ℕ) :
    inhibition_zone_pre plant bacterium c =
      (plant_base plant + Real.logb 10 ((c : ℝ) / 10) * 3) *
        bacterial_resistance bacterium ∧
    conc_effect 10 = 0 ∧
    inhibition_zone_pre plant bacterium 10 =
      plant_base plant * bacterial_resistance bacterium := by
  refine ⟨rfl, conc_effect_ten, ?_⟩
  unfold inhibition_zone_pre
  rw [conc_effect_ten, add_zero]

/-- C2: one invocation of the generator produces exactly
10 * 8 * 5 * 3 = 1200 records, no two records share the same
(extract, bacterium, concentration, replicate) key, and every stored
replicate index lies in 1..3. -/
theorem generator_cardinality_nodup_replicates (noise : ℕ → ℝ) (now : ℤ)
    (dateDraw : ℕ → ℕ) :
    (generate_records noise now dateDraw).length = 1200 ∧
    ((generate_records noise now dateDraw).map recordKey).Nodup ∧
    ∀ r ∈ generate_records noise now dateDraw, 1 ≤ r.replicate ∧ r.replicate ≤ 3 := by
  refine ⟨?_, ?_, ?_⟩
  · unfold generate_records
    rw [List.length_map, List.enum_length, combos_length]
  · rw [generate_records_map_key]
    refine combos_nodup.map ?_
    rintro ⟨p, b, c, r⟩ ⟨q, d, e, s⟩ h
    simp only [Prod.mk.injEq] at h ⊢
    obtain ⟨h1, h2, h3, h4⟩ := h
    exact ⟨h1, h2, h3, by omega⟩
  · intro r hr
    obtain ⟨k, p, b, c, rep, hk, hp, hb, hc, hrep, heq⟩ := generate_records_mem hr
    subst heq
    simp only [mkRecord]
    omega

/-- C2 witness: the replicate bounds evaluated on the first record of a
zero-noise run. -/
theorem generator_cardinality_nodup_replicates_witness :
    1 ≤ (mkRecord 0 (0 - (1 : ℤ)) "Garlic (Allium sativum)" "Escherichia coli"
      10 0).replicate ∧
    (mkRecord 0 (0 - (1 : ℤ)) "Garlic (Allium sativum)" "Escherichia coli"
      10 0).replicate ≤ 3 :=
  (generator_cardinality_nodup_replicates (fun _ => 0) 0 (fun _ => 1)).2.2 _
    (mem_of_head_eq rfl)

/-- C9 counterexample: the generator is *not* a deterministic function of the
random source and the fixed catalogs alone, because `Test_Date` is stamped as
`datetime.now() - timedelta(days=random.randint(1, 30))`
(`src/data_generator.py` line 104): two invocations with literally identical
noise and date-draw streams but clock values 0 and 1 produce different record
lists (the first records already differ in `testDate`: -1 versus 0). -/
theorem clock_dependence_counterexample :
    generate_records (fun _ => 0) 0 (fun _ => 1) ≠
      generate_records (fun _ => 0) 1 (fun _ => 1) := by
  intro h
  have e1 : ((generate_records (fun _ => 0) 0 (fun _ => 1)).head?.map
      Record.testDate) = some (0 - (1 : ℤ)) := rfl
  have e2 : ((generate_records (fun _ => 0) 1 (fun _ => 1)).head?.map
      Record.testDate) = some (1 - (1 : ℤ)) := rfl
  exact absurd
    ((e1.symm.trans
      (congrArg (fun l => l.head?.map Record.testDate) h)).trans e2)
    (by decide)

/-- C9 (amended): the generator is deterministic over (random source state,
clock, fixed catalogs): two runs whose noise and date-draw streams agree on
the 1200 consumed indices produce identical record lists *when their clock
values also agree*; without clock agreement only `Test_Date` can differ —
the other six columns of every record coincide. -/
theorem reproducibility_of_generation (noise₁ noise₂ : ℕ → ℝ) (now₁ now₂ : ℤ)
    (dd₁ dd₂ : ℕ → ℕ) (hn : ∀ k < 1200, noise₁ k = noise₂ k)
    (hd : ∀ k < 1200, dd₁ k = dd₂ k) :
    (now₁ = now₂ →
      generate_records noise₁ now₁ dd₁ = generate_records noise₂ now₂ dd₂) ∧
    (generate_records noise₁ now₁ dd₁).map recordData =
      (generate_records noise₂ now₂ dd₂).map recordData := by
  constructor
  · intro hnow
    subst hnow
    unfold generate_records
    refine List.map_congr_left ?_
    rintro ⟨k, p, b, c, rep⟩ hke
    obtain ⟨-, hk⟩ := mem_enumFrom_imp hke
    rw [combos_length] at hk
    show mkRecord (noise₁ k) (now₁ - (dd₁ k : ℤ)) p b c rep =
      mkRecord (noise₂ k) (now₁ - (dd₂ k : ℤ)) p b c rep
    rw [hn k (by omega), hd k (by omega)]
  · unfold generate_records
    rw [List.map_map, List.map_map]
    refine List.map_congr_left ?_
    rintro ⟨k, p, b, c, rep⟩ hke
    obtain ⟨-, hk⟩ := mem_enumFrom_imp hke
    rw [combos_length] at hk
    show recordData (mkRecord (noise₁ k) (now₁ - (dd₁ k : ℤ)) p b c rep) =
      recordData (mkRecord (noise₂ k) (now₂ - (dd₂ k : ℤ)) p b c rep)
    rw [hn k (by omega)]
    rfl

/-- C9 witness: the amended statement at equal draw streams and the distinct
clock values 0 and 1: the non-date columns of the two runs coincide. -/
theorem reproducibility_of_generation_witness :
    (((0 : ℤ) = 1) →
      generate_records (fun _ => 0) 0 (fun _ => 1) =
        generate_records (fun _ => 0) 1 (fun _ => 1)) ∧
    (generate_records (fun _ => 0) 0 (fun _ => 1)).map recordData =
      (generate_records (fun _ => 0) 1 (fun _ => 1)).map recordData :=
  reproducibility_of_generation (fun _ => 0) (fun _ => 0) 0 1 (fun _ => 1)
    (fun _ => 1) (fun _ _ => rfl) (fun _ _ => rfl)

/-- C10: the categorical columns of the generated records are a fixed,
noise-independent list: extract varies slowest (catalog order), then
bacterium, then concentration (the ascending catalog 10, 25, 50, 100, 200),
then the replicate 1, 2, 3; so the key of the k-th record is a function of
k alone. -/
theorem categorical_fields_fixed_order (noise : ℕ → ℝ) (now : ℤ)
    (dateDraw : ℕ → ℕ) :
    (generate_records noise now dateDraw).map recordKey =
      (plant_extracts.flatMap fun plant =>
        bacteria.flatMap fun bacterium =>
          concentrations.flatMap fun concentration =>
            [1, 2, 3].map fun rep => (plant, bacterium, concentration, rep)) ∧
    List.Pairwise (· < ·) concentrations := by
  refine ⟨?_, by decide⟩
  rw [generate_records_map_key]
  simp only [combos, List.map_flatMap, List.map_map]
  rfl

/-- C5: for the Clove extract (base 19), Pseudomonas aeruginosa
(resistance factor 0.6) and concentration 200, the zero-noise inhibition
value equals `(19 + log10(20) * 3) * 0.6`, lies in (13.7, 13.8) — i.e. is
approximately 13.75 — hence satisfies 10 ≤ value < 15 and the loop body with
the noise stubbed to 0 classifies it into tier "Low". -/
theorem clove_pseudomonas_scenario :
    inhibition_zone_pre "Clove (Syzygium aromaticum)" "Pseudomonas aeruginosa" 200 =
      (19 + Real.logb 10 20 * 3) * 0.6 ∧
    137 / 10 < inhibition_zone_pre "Clove (Syzygium aromaticum)"
      "Pseudomonas aeruginosa" 200 ∧
    inhibition_zone_pre "Clove (Syzygium aromaticum)"
      "Pseudomonas aeruginosa" 200 < 138 / 10 ∧
    10 ≤ inhibition_zone_pre "Clove (Syzygium aromaticum)"
      "Pseudomonas aeruginosa" 200 ∧
    inhibition_zone_pre "Clove (Syzygium aromaticum)"
      "Pseudomonas aeruginosa" 200 < 15 ∧
    (mkRecord 0 0 "Clove (Syzygium aromaticum)" "Pseudomonas aeruginosa"
      200 0).activityLevel = "Low" := by
  have hlo := lt_logb_twenty
  have hhi := logb_twenty_lt
  have hb1 : 137 / 10 < inhibition_zone_pre "Clove (Syzygium aromaticum)"
      "Pseudomonas aeruginosa" 200 := by
    rw [pre_clove_pseudomonas]; nlinarith
  have hb2 : inhibition_zone_pre "Clove (Syzygium aromaticum)"
      "Pseudomonas aeruginosa" 200 < 138 / 10 := by
    rw [pre_clove_pseudomonas]; nlinarith
  refine ⟨pre_clove_pseudomonas, hb1, hb2, by linarith, by linarith, ?_⟩
  rw [mkRecord_activityLevel, add_zero, max_eq_right (by linarith)]
  exact activity_level_low (by linarith) (by linarith)

/-- C6: holding extract and bacterium fixed, with a positive resistance
factor, the zero-noise clamped inhibition value is non-decreasing in the
concentration, for every pair of catalog concentrations c₁ ≤ c₂. -/
theorem expected_inhibition_monotone_in_concentration (plant bacterium : String)
    (hres : 0 < bacterial_resistance bacterium) (c₁ c₂ : ℕ)
    (h₁ : c₁ ∈ concentrations) (h₂ : c₂ ∈ concentrations) (hle : c₁ ≤ c₂) :
    max 0 (inhibition_zone_pre plant bacterium c₁) ≤
      max 0 (inhibition_zone_pre plant bacterium c₂) := by
  have hpos : (0 : ℝ) < (c₁ : ℝ) / 10 := by fin_cases h₁ <;> norm_num
  have hcast : ((c₁ : ℝ)) / 10 ≤ (c₂ : ℝ) / 10 := by
    have : (c₁ : ℝ) ≤ (c₂ : ℝ) := Nat.cast_le.2 hle
    linarith
  have hlog := Real.logb_le_logb_of_le (b := 10) (by norm_num) hpos hcast
  have hsum : plant_base plant + conc_effect c₁ ≤
      plant_base plant + conc_effect c₂ := by
    unfold conc_effect
    nlinarith
  refine max_le_max le_rfl ?_
  unfold inhibition_zone_pre
  exact mul_le_mul_of_nonneg_right hsum hres.le

/-- C6 witness: monotonicity evaluated for Garlic × E. coli between the
catalog concentrations 10 and 25. -/
theorem expected_inhibition_monotone_witness :
    max 0 (inhibition_zone_pre "Garlic (Allium sativum)" "Escherichia coli" 10) ≤
      max 0 (inhibition_zone_pre "Garlic (Allium sativum)" "Escherichia coli" 25) :=
  expected_inhibition_monotone_in_concentration "Garlic (Allium sativum)"
    "Escherichia coli"
    (by rw [show bacterial_resistance "Escherichia coli" = 1.0 from rfl]; norm_num)
    10 25 (by decide) (by decide) (by norm_num)

/-- C7 counterexample: the claim says the invocation does not itself write
any file, but `generate_antibacterial_data` calls
`df.to_csv('antibacterial_data.csv', index=False)` before returning: the
write-effect list of an invocation is not empty. -/
theorem csv_write_counterexample :
    (generate_antibacterial_data (fun _ => 0) 0 (fun _ => 1)).2 =
      ["antibacterial_data.csv"] := rfl

/-- C7 (amended): the record set is computed purely — it is a function of
the random draws, the clock and the fixed tables alone, with no external
input — but the invocation additionally writes the records to the file
`antibacterial_data.csv` before returning them. -/
theorem generation_pure_but_writes_csv (noise : ℕ → ℝ) (now : ℤ)
    (dateDraw : ℕ → ℕ) :
    (generate_antibacterial_data noise now dateDraw).1 =
      generate_records noise now dateDraw ∧
    (generate_antibacterial_data noise now dateDraw).2 =
      ["antibacterial_data.csv"] :=
  ⟨rfl, rfl⟩

/-- C8 counterexample: the claim says an invalid configuration (e.g. an
empty catalog) makes the generator fail fast with a configuration error;
but the generator body contains no validation and no error path: run over an
empty extract catalog it succeeds, returning `Except.ok` with an empty
record set instead of any error. -/
theorem no_validation_counterexample :
    generate_records_checked [] bacteria concentrations (fun _ => 0) 0
      (fun _ => 1) = Except.ok [] := rfl

/-- C8 (amended): the generator performs no configuration validation: for
every configuration — valid or not — it returns `Except.ok` (there is no
error path in the source).  An invalid configuration can in fact never
arise in the reference code, whose fixed configuration is valid: the
catalogs are non-empty, every concentration is positive and every variance
is non-negative. -/
theorem generator_never_errors_fixed_config_valid (plants bacts : List String)
    (concs : List ℕ) (noise : ℕ → ℝ) (now : ℤ) (dateDraw : ℕ → ℕ) :
    (∃ rs, generate_records_checked plants bacts concs noise now dateDraw =
      Except.ok rs) ∧
    plant_extracts ≠ [] ∧ bacteria ≠ [] ∧ concentrations ≠ [] ∧
    (∀ c ∈ concentrations, 0 < c) ∧
    (∀ p, 0 ≤ plant_variance p) := by
  refine ⟨⟨_, rfl⟩, by decide, by decide, by decide, by decide, ?_⟩
  intro p
  unfold plant_variance
  split <;> norm_num

/-- C8 witness: the amended statement evaluated at an empty configuration:
even then the generator succeeds, returning some `Except.ok`. -/
theorem generator_never_errors_witness :
    ∃ rs, generate_records_checked [] [] [] (fun _ => 0) 0 (fun _ => 1) =
      Except.ok rs :=
  (generator_never_errors_fixed_config_valid [] [] [] (fun _ => 0) 0
    (fun _ => 1)).1

end Antibacterial
